import Mathlib

/-!
Verification of the safe_lvgl_converter generator (SafeLVGL_Generator.py).

This file gives a shallow embedding of the generator's core:
the declaration model (`c_obj_decl` / `c_func_obj_decl` rendering),
the declarator normalization (`__get_nesting_type__`, `c_decl_to_c_obj`),
the function collector (`__add_lvgl_func__` / `__parse_header__` loop),
the wrapper emission helpers (`gen_func_call`, the `${func_ret}` rule,
`__gen_func_def__` / `__gen_func_decl__`), and the version-header scan
(`get_lvgl_version`).  Theorems about these definitions settle the claims
of the specification.
-/

namespace SafeLvgl

/-! ## Python exception model

`c_decl_to_c_obj` raises two distinct kinds of Python exceptions:
`NotImplementedError` (and its subclass `EllipsisParamException`), which
`__add_lvgl_func__` catches, and plain `Exception` / `TypeError`, which it
does not catch.  We track the distinction. -/

inductive PyErr where
  | notImplemented (msg : String)
  | exception (msg : String)
  deriving Repr, DecidableEq

/-! ## AST node model (the pycparser node shapes the generator inspects) -/

/-- Terminal node found under a `TypeDecl` (`child_node.type` in
`__get_nesting_type__`): `pyc.c_ast.Struct`, `IdentifierType`, `Enum`, or
`Union`. -/
inductive TypeLeaf where
  | struct (tag : String)
  | ident (names : List String)
  | enum (tag : String)
  | union (tag : String)
  deriving Repr, DecidableEq

/-- Declarator chain: `ArrayDecl` / `PtrDecl` wrappers, a `TypeDecl` holding
a terminal type node, or a `Typename` wrapper (unnamed types in parameter
position). -/
inductive TypeNode where
  | arrayDecl (elem : TypeNode)
  | ptrDecl (pointee : TypeNode)
  | typeDecl (leaf : TypeLeaf)
  | typename (inner : TypeNode)
  deriving Repr, DecidableEq

mutual
/-- Shape of `node.type` for a `pyc.c_ast.Decl`, following the isinstance
cascade in `c_decl_to_c_obj`: a declarator chain (`ArrayDecl` / `PtrDecl` /
`TypeDecl` / `Typename`, carried as a `TypeNode`), a nested `Decl`, a direct
`Enum`, a `FuncDecl` (argument nodes plus return declarator), or any other
node kind. -/
inductive DeclType where
  | tnode (t : TypeNode)
  | declInDecl
  | enumDirect (tag : String)
  | funcDecl (args : PList) (ret : TypeNode)
  | otherType

/-- A node passed to `c_decl_to_c_obj`: a `Decl` (with the fields the code
reads), a `Typename` parameter node, a bare `TypeDecl`, the
`EllipsisParam` variadic marker, or any other node kind. -/
inductive PNode where
  | decl (name : String) (quals align storage funcspec : List String)
      (ty : DeclType)
  | typenameP (name : String) (quals : List String) (ty : TypeNode)
  | typeDeclP (leaf : TypeLeaf)
  | ellipsis
  | otherNode

/-- List of parameter nodes of a `FuncDecl` (`node.type.args`). -/
inductive PList where
  | nil
  | cons (hd : PNode) (tl : PList)
end

/-! ## Declaration model (`c_obj_decl` / `c_func_obj_decl`) -/

/-- Embedding of `c_obj_decl` and its subclass `c_func_obj_decl`.
A non-function object has `isFunc = false`, `funcspec = []`, `params = []`;
a function (`c_func_obj_decl`) has `isFunc = true` and, as in its
constructor, an empty `align`. -/
inductive CObj where
  | mk (name : String) (quals align storage : List String) (type : String)
      (arrayLayers pointerLayers : Nat) (isFunc : Bool)
      (funcspec : List String) (params : List CObj)

def CObj.name : CObj → String
  | .mk n _ _ _ _ _ _ _ _ _ => n

def CObj.quals : CObj → List String
  | .mk _ q _ _ _ _ _ _ _ _ => q

def CObj.align : CObj → List String
  | .mk _ _ a _ _ _ _ _ _ _ => a

def CObj.storage : CObj → List String
  | .mk _ _ _ s _ _ _ _ _ _ => s

def CObj.type : CObj → String
  | .mk _ _ _ _ t _ _ _ _ _ => t

def CObj.arrayLayers : CObj → Nat
  | .mk _ _ _ _ _ a _ _ _ _ => a

def CObj.pointerLayers : CObj → Nat
  | .mk _ _ _ _ _ _ p _ _ _ => p

def CObj.isFunc : CObj → Bool
  | .mk _ _ _ _ _ _ _ b _ _ => b

def CObj.funcspec : CObj → List String
  | .mk _ _ _ _ _ _ _ _ fs _ => fs

def CObj.params : CObj → List CObj
  | .mk _ _ _ _ _ _ _ _ _ ps => ps

/-- `c_obj_decl.type_to_str`: the base type, then — when there are pointer
layers — a space (when `space` is set) followed by one `*` per layer. -/
def typeToStr (d : CObj) (space : Bool) : String :=
  if d.pointerLayers ≠ 0 then
    d.type ++ (if space then " " else "") ++
      String.mk (List.replicate d.pointerLayers '*')
  else
    d.type

/-- `c_obj_decl.name_to_str`: the name, followed by one `[]` per array layer
when `withArray` is set. -/
def nameToStr (d : CObj) (withArray : Bool) : String :=
  if withArray then d.name ++ String.join (List.replicate d.arrayLayers "[]")
  else d.name

/-- The qualifier / alignment / storage prefix built by the first three
conditional blocks of `c_obj_decl.to_str`. -/
def declPre (d : CObj) : String :=
  let q := String.intercalate " " d.quals
  let a := String.intercalate " " d.align
  let s := String.intercalate " " d.storage
  (if q ≠ "" then q ++ " " else "") ++
    (if a ≠ "" then a ++ " " else "") ++
    (if s ≠ "" then s ++ " " else "")

/-- `c_obj_decl.to_str`: prefix, then either `type + " " + name` (when the
rendered type is not `"void"`) or the rendered type alone, then an optional
semicolon. -/
def toStr (d : CObj) (semicolon withArray : Bool) : String :=
  (declPre d ++
    (if typeToStr d true ≠ "void" then
      typeToStr d true ++ " " ++ nameToStr d withArray
    else
      typeToStr d true)) ++
  (if semicolon then ";" else "")

/-- `c_func_obj_decl.params_to_str`: each parameter via
`to_str(semicolon = False, with_array = True)`, joined with `", "`. -/
def paramsToStr (f : CObj) : String :=
  String.intercalate ", " (f.params.map (fun p => toStr p false true))

/-- `c_func_obj_decl.to_str`: qualifiers, storage, function specifiers,
then `type_to_str() + " " + name_to_str(True) + "(" + params + ")"`,
optionally a semicolon. -/
def funcToStr (f : CObj) (semicolon : Bool) : String :=
  let q := String.intercalate " " f.quals
  let s := String.intercalate " " f.storage
  let fs := String.intercalate " " f.funcspec
  ((if q ≠ "" then q ++ " " else "") ++
    (if s ≠ "" then s ++ " " else "") ++
    (if fs ≠ "" then fs ++ " " else "") ++
    typeToStr f true ++ " " ++ nameToStr f true ++ "(" ++ paramsToStr f ++
      ")") ++
  (if semicolon then ";" else "")

/-- The parameter string built by the index loop in
`c_func_obj_decl.gen_func_call`: every non-last parameter whose rendered
type is not `"void"` contributes `name + ", "`, the last one contributes
`name` when its rendered type is not `"void"`. -/
def buildParams : List CObj → String
  | [] => ""
  | [p] => if typeToStr p true ≠ "void" then p.name else ""
  | p :: q :: rest =>
    (if typeToStr p true ≠ "void" then p.name ++ ", " else "") ++
      buildParams (q :: rest)

/-- `c_func_obj_decl.gen_func_call`: when the rendered return type is not
`"void"`, `"<type> ret = <name>(<params>);"`, else `"<name>(<params>);"`. -/
def genFuncCall (f : CObj) : String :=
  if typeToStr f true ≠ "void" then
    typeToStr f true ++ " ret = " ++ f.name ++ "(" ++ buildParams f.params ++
      ");"
  else
    f.name ++ "(" ++ buildParams f.params ++ ");"

/-- The `${func_ret}` substitution of `__gen_func_def__` /
`__gen_func_decl__`: `"return ret;"` when `function.type != "void"`
(the raw base-type string, pointer layers ignored), else `""`. -/
def funcRet (f : CObj) : String :=
  if f.type ≠ "void" then "return ret;" else ""

/-! ## Type resolver (`__get_nesting_type__`) -/

/-- First while-loop of `__get_nesting_type__`: count and strip the leading
`ArrayDecl` wrappers. -/
def stripArrays : TypeNode → Nat × TypeNode
  | .arrayDecl t => let r := stripArrays t; (r.1 + 1, r.2)
  | t => (0, t)

/-- Second while-loop of `__get_nesting_type__`: count and strip the leading
`PtrDecl` wrappers. -/
def stripPtrs : TypeNode → Nat × TypeNode
  | .ptrDecl t => let r := stripPtrs t; (r.1 + 1, r.2)
  | t => (0, t)

/-- `__get_nesting_type__`: strip arrays, then pointers, unwrap a single
`Typename`, and classify the terminal `TypeDecl`'s type node: `Struct`
gives `"struct " ++ tag`, `IdentifierType` gives the first name of its
name list; everything else (including `Enum` and `Union`) raises a plain
`Exception`.  Returns `(base_type, array_layers, pointer_layers)`. -/
def getNestingType (node : TypeNode) : Except PyErr (String × Nat × Nat) :=
  let ra := stripArrays node
  let rp := stripPtrs ra.2
  let child :=
    match rp.2 with
    | .typename t => t
    | t => t
  match child with
  | .typeDecl leaf =>
    match leaf with
    | .struct tag => .ok ("struct " ++ tag, ra.1, rp.1)
    | .ident names =>
      match names with
      | [] => .error (.exception "IndexError")
      | n :: _ => .ok (n, ra.1, rp.1)
    | _ => .error (.exception "Unknown type in TypeDecl")
  | _ => .error (.exception "Unknown type")

/-! ## Declaration conversion (`c_decl_to_c_obj`) -/

/-- The shared tail of the `ArrayDecl` / `PtrDecl` / `TypeDecl` branches of
the `Decl` case of `c_decl_to_c_obj`: resolve the declarator through
`__get_nesting_type__` and build the `c_obj_decl`. -/
def objFromNesting (name : String) (quals storage : List String)
    (t : TypeNode) : Except PyErr CObj :=
  match getNestingType t with
  | .error e => .error e
  | .ok r => .ok (.mk name quals [] storage r.1 r.2.1 r.2.2 false [] [])

mutual
/-- `c_decl_to_c_obj`.  A `Decl` with a non-empty `align` raises a plain
`Exception`; a `Decl` whose type is an `ArrayDecl` / `PtrDecl` / `TypeDecl`
resolves through `getNestingType`; a `Typename` type resolves and then
raises `Exception("TODO.")`; a direct `Enum` yields base type
`"enum " ++ tag`; a `FuncDecl` converts its parameters first and then its
return declarator; an `EllipsisParam` raises `EllipsisParamException`
(a `NotImplementedError`); other node kinds raise plain exceptions. -/
def cDeclToCObj : PNode → Except PyErr CObj
  | .decl _ _ (_ :: _) _ _ _ =>
    .error (.exception "Align is not supported temporarily.")
  | .decl name quals [] storage _ (.tnode (.arrayDecl e)) =>
    objFromNesting name quals storage (.arrayDecl e)
  | .decl name quals [] storage _ (.tnode (.ptrDecl e)) =>
    objFromNesting name quals storage (.ptrDecl e)
  | .decl name quals [] storage _ (.tnode (.typeDecl leaf)) =>
    objFromNesting name quals storage (.typeDecl leaf)
  | .decl _ _ [] _ _ (.tnode (.typename inner)) =>
    (match getNestingType inner with
    | .error e => .error e
    | .ok _ => .error (.exception "TODO."))
  | .decl _ _ [] _ _ .declInDecl =>
    .error (.exception "The Decl should no longer appear in the Decl.")
  | .decl name quals [] storage _ (.enumDirect tag) =>
    .ok (.mk name quals [] storage ("enum " ++ tag) 0 0 false [] [])
  | .decl name quals [] storage funcspec (.funcDecl args ret) =>
    (match convParams args with
    | .error e => .error e
    | .ok ps =>
      match getNestingType ret with
      | .error e => .error e
      | .ok r =>
        .ok (.mk name quals [] storage r.1 r.2.1 r.2.2 true funcspec ps))
  | .decl _ _ [] _ _ .otherType =>
    .error (.exception "Types that should not appear")
  | .typenameP name quals (.typeDecl leaf) =>
    (match getNestingType (.typename (.typeDecl leaf)) with
    | .error e => .error e
    | .ok r => .ok (.mk name quals [] [] r.1 r.2.1 r.2.2 false [] []))
  | .typenameP _ _ (.arrayDecl _) => .error (.exception "TODO, node")
  | .typenameP _ _ (.ptrDecl _) => .error (.exception "TODO, node")
  | .typenameP _ _ (.typename _) => .error (.exception "TODO, node")
  | .typeDeclP leaf =>
    (match getNestingType (.typeDecl leaf) with
    | .error e => .error e
    | .ok r => .ok (.mk "" [] [] [] r.1 r.2.1 r.2.2 false [] []))
  | .ellipsis =>
    .error (.notImplemented "EllipsisParam is not supported temporarily.")
  | .otherNode => .error (.exception "Should not appear other types")

/-- The parameter loop of the `FuncDecl` branch of `c_decl_to_c_obj`:
convert each argument node in order, propagating the first exception. -/
def convParams : PList → Except PyErr (List CObj)
  | .nil => .ok []
  | .cons p ps =>
    match cDeclToCObj p with
    | .error e => .error e
    | .ok c =>
      match convParams ps with
      | .error e => .error e
      | .ok cs => .ok (c :: cs)
end

/-! ## Function collector (`__add_lvgl_func__`, `__parse_header__`) -/

/-- The name the collector reads from a node (`func_node.name`). -/
def nodeName : PNode → String
  | .decl n _ _ _ _ _ => n
  | .typenameP n _ _ => n
  | _ => ""

/-- The blacklist loop of `__add_lvgl_func__`.  A blacklist entry, a
compiled regex in the source (default `^(_lv){1}`), is modelled as the
literal string it matches; `re.Pattern.match` anchors at the start of the
name and need not consume all of it, which for a literal pattern is exactly
a character-wise prefix test. -/
def blacklisted (patterns : List String) (name : String) : Bool :=
  patterns.any (fun p => p.data.isPrefixOf name.data)

/-- `__add_lvgl_func__`: skip when blacklisted; skip when a function of the
same name is already in the list; otherwise convert, catching only
`NotImplementedError` (logged as a warning, function skipped) — a plain
`Exception` from the conversion propagates to the caller.  Returns the
updated list and the method's boolean result. -/
def addLvglFunc (patterns : List String) (funcList : List CObj)
    (node : PNode) : Except PyErr (List CObj × Bool) :=
  let name := nodeName node
  if blacklisted patterns name then .ok (funcList, false)
  else if funcList.any (fun f => f.name == name) then .ok (funcList, false)
  else
    match cDeclToCObj node with
    | .error (.notImplemented _) => .ok (funcList, false)
    | .error (.exception m) => .error (.exception m)
    | .ok f => .ok (funcList ++ [f], true)

/-- The node loop of `__parse_header__`: feed each top-level function node
to `__add_lvgl_func__`, accumulating `self.__func_list__`. -/
def runCollector (patterns : List String) :
    List PNode → List CObj → Except PyErr (List CObj)
  | [], acc => .ok acc
  | n :: ns, acc =>
    match addLvglFunc patterns acc n with
    | .error e => .error e
    | .ok r => runCollector patterns ns r.1

/-! ## Wrapper emission (`__gen_func_def__`, `__gen_func_decl__`) -/

/-- The copy-then-rename step shared by `__gen_func_def__` and
`__gen_func_decl__`: `safe_func_decl = copy.deepcopy(function)` followed by
`safe_func_decl.name = prefix + function.name` (the prefix is the literal
`"safe_"` in `SafeLVGL_Generator.py` and `self._safe_lvgl_prefix` in
`SafeLVGLGenerator.py`). -/
def safeClone (pre : String) (f : CObj) : CObj :=
  match f with
  | .mk _ quals align storage type a p b fs ps =>
    .mk (pre ++ f.name) quals align storage type a p b fs ps

/-- `__gen_func_def__` as a state transformer: the returned pair is the
produced text and the object the local variable `function` refers to after
the call (the deepcopy makes the renamed clone independent, so it is the
unchanged input). -/
def genFuncDef (tmpl pre : String) (f : CObj) : String × CObj :=
  let safeFuncDecl := safeClone pre f
  let s1 := tmpl.replace "${func_decl}" (funcToStr safeFuncDecl false)
  let s2 := s1.replace "${func_call}" (genFuncCall f)
  let s3 := s2.replace "${func_ret}" (funcRet f)
  let s4 := s3.replace "${func_comms}" ""
  (s4, f)

/-- `__gen_func_decl__`, same substitution pipeline applied to the
declaration template. -/
def genFuncDecl (tmpl pre : String) (f : CObj) : String × CObj :=
  let safeFuncDecl := safeClone pre f
  let s1 := tmpl.replace "${func_decl}" (funcToStr safeFuncDecl false)
  let s2 := s1.replace "${func_call}" (genFuncCall f)
  let s3 := s2.replace "${func_ret}" (funcRet f)
  let s4 := s3.replace "${func_comms}" ""
  (s4, f)

/-! ## Version scan (`get_lvgl_version`) -/

/-- Maximal run of `' '` dropped after the first mandatory space
(the greedy `[ ]+`). -/
def dropSpaces (cs : List Char) : List Char :=
  cs.dropWhile (fun c => c == ' ')

/-- The regex fragment `[ ]+`: at least one space, consumed greedily. -/
def spaces1 : List Char → Option (List Char)
  | ' ' :: rest => some (dropSpaces rest)
  | _ => none

/-- Match a literal fragment of the pattern (`^(\#define){1}` and the macro
name) against the head of the line, returning the rest. -/
def stripLit : List Char → List Char → Option (List Char)
  | [], s => some s
  | c :: cs, d :: ds => if c = d then stripLit cs ds else none
  | _ :: _, [] => none

/-- The capture group `[0-9]+` followed by `int(...)`: the maximal leading
digit run, as a number; `none` when the line has no digit there.  Anything
after the digits is irrelevant, as `re.match` only anchors the start. -/
def digitsVal (cs : List Char) : Option Nat :=
  let ds := cs.takeWhile (fun c => c.isDigit)
  if ds.isEmpty then none
  else some (ds.foldl (fun acc c => 10 * acc + (c.toNat - 48)) 0)

/-- One of the three version patterns, e.g.
`^(\#define){1}[ ]+(LVGL_VERSION_MAJOR){1}[ ]+(?P<major_version>[0-9]+)`,
applied with `re.Pattern.match` to a line. -/
def matchDefine (macroName : String) (line : String) : Option Nat :=
  match stripLit "#define".data line.data with
  | none => none
  | some r1 =>
    match spaces1 r1 with
    | none => none
    | some r2 =>
      match stripLit macroName.data r2 with
      | none => none
      | some r3 =>
        match spaces1 r3 with
        | none => none
        | some r4 => digitsVal r4

/-- The loop body of `get_lvgl_version` for one line: each of
major/minor/patch is re-matched only while it is still falsy (zero), as in
`if(not self.lvgl_version_major): ...`. -/
def versionStep (st : Nat × Nat × Nat) (line : String) : Nat × Nat × Nat :=
  let ma := if st.1 = 0 then
      (matchDefine "LVGL_VERSION_MAJOR" line).getD st.1
    else st.1
  let mi := if st.2.1 = 0 then
      (matchDefine "LVGL_VERSION_MINOR" line).getD st.2.1
    else st.2.1
  let pa := if st.2.2 = 0 then
      (matchDefine "LVGL_VERSION_PATCH" line).getD st.2.2
    else st.2.2
  (ma, mi, pa)

/-- `get_lvgl_version` over the (newline-stripped) lines of `lvgl.h`:
fields start at zero and the method returns `[major, minor, patch]`. -/
def getLvglVersion (lines : List String) : List Nat :=
  let r := lines.foldl versionStep (0, 0, 0)
  [r.1, r.2.1, r.2.2]

/-! ## Specification-side rendering shape (for the refinement comparison)

`specRender` follows the spec's words for the reconstruction property:
`T` + (` ` + `*`×P if P>0) + ` ` + name + (`[]`×A).  It is compared with
the concatenation of the source's rendering functions. -/

def specRender (T : String) (P : Nat) (n : String) (A : Nat) : String :=
  T ++ (if P > 0 then " " ++ String.mk (List.replicate P '*') else "") ++
    " " ++ n ++ String.join (List.replicate A "[]")

/-- Comma-join of the surviving call-argument names, as the spec words it
(`joining remaining parameter names with ", "`). -/
def joinComma : List String → String
  | [] => ""
  | [x] => x
  | x :: y :: rest => x ++ ", " ++ joinComma (y :: rest)

/-! ## Concrete inputs used by counterexamples and witnesses -/

/-- A top-level function declaration carrying an alignment specifier
(`node.align` non-empty), whose conversion raises a plain `Exception`. -/
def alignNode : PNode :=
  .decl "lv_obj_align" [] ["16"] [] []
    (.funcDecl .nil (.typeDecl (.ident ["void"])))

/-- A variadic function declaration: its parameter list contains the
`EllipsisParam` marker, whose conversion raises the
`EllipsisParamException` (a `NotImplementedError`). -/
def varNode : PNode :=
  .decl "lv_label_set_text_fmt" [] [] [] []
    (.funcDecl (.cons .ellipsis .nil) (.typeDecl (.ident ["void"])))

/-- First top-level declaration of `lv_foo`, returning `int`. -/
def fooIntNode : PNode :=
  .decl "lv_foo" [] [] [] [] (.funcDecl .nil (.typeDecl (.ident ["int"])))

/-- Second top-level declaration of `lv_foo`, returning `void`. -/
def fooVoidNode : PNode :=
  .decl "lv_foo" [] [] [] [] (.funcDecl .nil (.typeDecl (.ident ["void"])))

/-- The collected object for `fooIntNode`. -/
def fooIntObj : CObj := .mk "lv_foo" [] [] [] "int" 0 0 true [] []

/-- A blacklisted function declaration (`_lv_internal`). -/
def blNode : PNode :=
  .decl "_lv_internal" [] [] [] []
    (.funcDecl .nil (.typeDecl (.ident ["void"])))

/-- A collected function returning `void *`: base type `"void"` with one
pointer layer. -/
def voidPtrFunc : CObj := .mk "lv_mem_alloc" [] [] [] "void" 0 1 true [] []

/-- A collected function declared `void lv_task_handler(void)`: `void`
return and a single unnamed `void` parameter. -/
def voidVoidFunc : CObj :=
  .mk "lv_task_handler" [] [] [] "void" 0 0 true []
    [.mk "" [] [] [] "void" 0 0 false [] []]

/-- The parameter list of `int * g(int a, char * b)`. -/
def intCharParams : List CObj :=
  [.mk "a" [] [] [] "int" 0 0 false [] [],
   .mk "b" [] [] [] "char" 0 1 false [] []]

/-- An object declaration `int a` (no pointers, no arrays). -/
def c4Obj : CObj := .mk "a" [] [] [] "int" 0 0 false [] []

/-- An object declaration with base type `"void"`, zero pointer layers, a
non-empty name and two array layers. -/
def c10Obj : CObj := .mk "x" [] [] [] "void" 2 0 false [] []

/-- Version-header line defining `LVGL_VERSION_PATCH` as 1. -/
def pLineEx : String := "#define LVGL_VERSION_PATCH 1"

/-- Version-header line defining `LVGL_VERSION_MAJOR` as 9. -/
def mLineEx : String := "#define LVGL_VERSION_MAJOR 9"

/-- Version-header line defining `LVGL_VERSION_MINOR` as 2. -/
def nLineEx : String := "#define LVGL_VERSION_MINOR 2"

/-! ## Helper lemmas -/

/-- A successful `objFromNesting` carries the name it was given. -/
lemma objFromNesting_name {n : String} {q s : List String} {t : TypeNode}
    {f : CObj} (h : objFromNesting n q s t = .ok f) : f.name = n := by
  unfold objFromNesting at h
  split at h
  · simp at h
  · injection h with h2
    subst h2
    rfl

/-- A successful conversion produces an object carrying the node's name,
the same name `__add_lvgl_func__` uses for its duplicate check. -/
lemma cDeclToCObj_name : ∀ {node : PNode} {f : CObj},
    cDeclToCObj node = .ok f → f.name = nodeName node := by
  intro node f h
  cases node with
  | decl n q a s fs ty =>
    cases a with
    | cons x xs => simp [cDeclToCObj] at h
    | nil =>
      cases ty with
      | tnode t =>
        cases t <;> simp only [cDeclToCObj, nodeName] at h ⊢ <;>
          first
            | (exact objFromNesting_name h)
            | ((repeat' split at h) <;> simp_all)
      | declInDecl => simp [cDeclToCObj] at h
      | enumDirect tag =>
        simp only [cDeclToCObj, nodeName] at h ⊢
        injection h with h2
        subst h2
        rfl
      | funcDecl args ret =>
        simp only [cDeclToCObj, nodeName] at h ⊢
        (repeat' split at h) <;>
          first
            | (injection h with h2; subst h2; rfl)
            | simp_all
      | otherType => simp [cDeclToCObj] at h
  | typenameP n q t =>
    cases t <;> simp only [cDeclToCObj, nodeName] at h ⊢ <;>
      (repeat' split at h) <;>
      first
        | (injection h with h2; subst h2; rfl)
        | simp_all
  | typeDeclP leaf =>
    simp only [cDeclToCObj, nodeName] at h ⊢
    (repeat' split at h) <;>
      first
        | (injection h with h2; subst h2; rfl)
        | simp_all
  | ellipsis => simp [cDeclToCObj] at h
  | otherNode => simp [cDeclToCObj] at h

/-- When conversion fails with a `NotImplementedError`, `__add_lvgl_func__`
catches it: the list is unchanged and the method returns `False`. -/
lemma addLvglFunc_notImpl {patterns : List String} {acc : List CObj}
    {node : PNode} {m : String}
    (hc : cDeclToCObj node = .error (.notImplemented m)) :
    addLvglFunc patterns acc node = .ok (acc, false) := by
  by_cases hb : blacklisted patterns (nodeName node) = true
  · simp [addLvglFunc, hb]
  · by_cases hd : (acc.any (fun f => f.name == nodeName node)) = true
    · simp [addLvglFunc, hb, hd]
    · simp [addLvglFunc, hb, hd, hc]

/-- Every non-failing step of `__add_lvgl_func__` either leaves the list
unchanged or appends a single function whose name is absent from it. -/
lemma addLvglFunc_ok {patterns : List String} {acc : List CObj}
    {node : PNode} {acc2 : List CObj} {b : Bool}
    (h : addLvglFunc patterns acc node = .ok (acc2, b)) :
    acc2 = acc ∨ ∃ f, acc2 = acc ++ [f] ∧ ∀ g ∈ acc, g.name ≠ f.name := by
  by_cases hb : blacklisted patterns (nodeName node) = true
  · simp [addLvglFunc, hb] at h
    exact Or.inl h.1.symm
  · by_cases hd : (acc.any (fun f => f.name == nodeName node)) = true
    · simp [addLvglFunc, hb, hd] at h
      exact Or.inl h.1.symm
    · rcases hc : cDeclToCObj node with e | f0
      · rcases e with m | m
        · simp [addLvglFunc, hb, hd, hc] at h
          exact Or.inl h.1.symm
        · simp [addLvglFunc, hb, hd, hc] at h
      · simp [addLvglFunc, hb, hd, hc] at h
        refine Or.inr ⟨f0, h.1.symm, ?_⟩
        intro g hg
        have hg2 := List.any_eq_false.mp (Bool.eq_false_iff.mpr hd) g hg
        have hn : f0.name = nodeName node := cDeclToCObj_name hc
        rw [hn]
        simpa using hg2

/-- The collector loop preserves pairwise-distinct names. -/
lemma runCollector_pairwise {patterns : List String} :
    ∀ {nodes : List PNode} {acc res : List CObj},
    List.Pairwise (fun a b => a.name ≠ b.name) acc →
    runCollector patterns nodes acc = .ok res →
    List.Pairwise (fun a b => a.name ≠ b.name) res := by
  intro nodes
  induction nodes with
  | nil =>
    intro acc res hacc h
    simp [runCollector] at h
    exact h ▸ hacc
  | cons n ns ih =>
    intro acc res hacc h
    unfold runCollector at h
    rcases ha : addLvglFunc patterns acc n with e | r
    · simp [ha] at h
    · simp only [ha] at h
      obtain ⟨acc2, b⟩ := r
      rcases addLvglFunc_ok ha with heq | ⟨f, heq, hf⟩
      · exact ih (heq ▸ hacc) h
      · refine ih ?_ h
        rw [heq]
        refine List.pairwise_append.mpr ⟨hacc, List.pairwise_singleton _ _, ?_⟩
        intro g hg f2 hf2
        rcases List.mem_singleton.mp hf2 with rfl
        exact hf g hg

/-- `gen_func_call`'s parameter loop joins all names with `", "` when no
parameter renders as `"void"`. -/
lemma buildParams_eq_join : ∀ (l : List CObj),
    (∀ p ∈ l, typeToStr p true ≠ "void") →
    buildParams l = joinComma (l.map CObj.name)
  | [] => fun _ => rfl
  | [p] => fun h => by
    simp [buildParams, joinComma, h p (List.mem_singleton.mpr rfl)]
  | p :: q :: rest => fun h => by
    have hp := h p (List.mem_cons_self p _)
    have ih := buildParams_eq_join (q :: rest)
      (fun r hr => h r (List.mem_cons_of_mem _ hr))
    simp [buildParams, joinComma, hp, ih, String.append_assoc]

/-- A line matching only the major pattern sets a zero major field and
leaves the other fields alone. -/
lemma versionStep_setMajor {l : String} {a : Nat} (mi pa : Nat)
    (hA : matchDefine "LVGL_VERSION_MAJOR" l = some a)
    (hI : matchDefine "LVGL_VERSION_MINOR" l = none)
    (hP : matchDefine "LVGL_VERSION_PATCH" l = none) :
    versionStep (0, mi, pa) l = (a, mi, pa) := by
  simp [versionStep, hA, hI, hP]

/-- A line matching only the minor pattern sets a zero minor field and
leaves the other fields alone. -/
lemma versionStep_setMinor {l : String} {b : Nat} (ma pa : Nat)
    (hA : matchDefine "LVGL_VERSION_MAJOR" l = none)
    (hI : matchDefine "LVGL_VERSION_MINOR" l = some b)
    (hP : matchDefine "LVGL_VERSION_PATCH" l = none) :
    versionStep (ma, 0, pa) l = (ma, b, pa) := by
  simp [versionStep, hA, hI, hP]

/-- A line matching only the patch pattern sets a zero patch field and
leaves the other fields alone. -/
lemma versionStep_setPatch {l : String} {c : Nat} (ma mi : Nat)
    (hA : matchDefine "LVGL_VERSION_MAJOR" l = none)
    (hI : matchDefine "LVGL_VERSION_MINOR" l = none)
    (hP : matchDefine "LVGL_VERSION_PATCH" l = some c) :
    versionStep (ma, mi, 0) l = (ma, mi, c) := by
  simp [versionStep, hA, hI, hP]

/-- When no line matches the major pattern, the scan leaves the major field
where it started. -/
lemma foldl_major_none : ∀ (lines : List String) (st : Nat × Nat × Nat),
    (∀ l ∈ lines, matchDefine "LVGL_VERSION_MAJOR" l = none) →
    (lines.foldl versionStep st).1 = st.1
  | [], _, _ => rfl
  | l :: ls, st, h => by
    rw [List.foldl_cons]
    rw [foldl_major_none ls (versionStep st l)
      (fun x hx => h x (List.mem_cons_of_mem _ hx))]
    simp [versionStep, h l (List.mem_cons_self l _)]

/-! ## Claim theorems -/

/-- Claim C1, counterexample.  A top-level function declaration that fails
conversion for a non-variadic UnsupportedType reason — here a disallowed
alignment specifier — is claimed to be discarded with a warning while the
run continues.  In the code this failure is raised as a plain `Exception`,
which `__add_lvgl_func__` does not catch, so the whole run fails: the
collector loop returns the exception instead of a collected list. -/
theorem collector_exception_escapes :
    runCollector [] [alignNode] [] =
      .error (.exception "Align is not supported temporarily.") := rfl

/-- Claim C1, amended.  Per-function conversion failures raised as
`NotImplementedError` — the variadic `EllipsisParam` marker — are contained
by `__add_lvgl_func__`: the function is dropped (with a warning) and the
method returns normally.  But a conversion failure raised as a plain
`Exception` (disallowed alignment, union or unknown terminal type,
unresolvable base type) propagates out of `__add_lvgl_func__` as a
run-level failure whenever the blacklist and duplicate checks do not skip
the node first. -/
theorem collector_failure_containment_amended :
    (∀ (patterns : List String) (acc : List CObj) (node : PNode)
       (m : String),
      cDeclToCObj node = .error (.notImplemented m) →
      addLvglFunc patterns acc node = .ok (acc, false))
    ∧ (∀ (patterns : List String) (acc : List CObj) (node : PNode)
       (m : String),
      blacklisted patterns (nodeName node) = false →
      (acc.any (fun f => f.name == nodeName node)) = false →
      cDeclToCObj node = .error (.exception m) →
      addLvglFunc patterns acc node = .error (.exception m)) := by
  constructor
  · intro patterns acc node m hc
    exact addLvglFunc_notImpl hc
  · intro patterns acc node m hb hd hc
    simp [addLvglFunc, hb, hd, hc]

/-- Claim C1, witness: the containment branch at a concrete variadic
declaration and the escalation branch at a concrete aligned declaration. -/
theorem collector_failure_containment_witness :
    addLvglFunc [] [] varNode = .ok ([], false)
    ∧ addLvglFunc [] [] alignNode =
      .error (.exception "Align is not supported temporarily.") :=
  ⟨collector_failure_containment_amended.1 [] [] varNode
      "EllipsisParam is not supported temporarily." rfl,
   collector_failure_containment_amended.2 [] [] alignNode
      "Align is not supported temporarily." rfl rfl rfl⟩

/-- Claim C2 (code bug).  The claim — and the only reading under which the
emitted wrapper compiles — says `${func_ret}` becomes `"return ret;"`
exactly when the rendered return type is not `"void"`, so a `void *` return
gets `"return ret;"`.  The code tests the raw base-type string instead:
for a collected function returning `void *` (base `"void"`, one pointer
layer) the call line declares `void * ret = ...` (because `gen_func_call`
tests the rendered type) while `${func_ret}` is replaced by the empty
string (because `__gen_func_def__` tests `function.type`), leaving the
non-void wrapper without a return statement. -/
theorem funcRet_voidPtr_code_bug :
    funcRet voidPtrFunc = ""
    ∧ genFuncCall voidPtrFunc = "void * ret = lv_mem_alloc();"
    ∧ typeToStr voidPtrFunc true ≠ "void" :=
  ⟨rfl, by decide, by decide⟩

/-- Claim C3, counterexample.  A declarator whose terminal type node is an
`Enum` is claimed to resolve to base type `"enum " ++ tag`; instead
`__get_nesting_type__` has no `Enum` branch and raises a plain
`Exception`. -/
theorem enum_terminal_counterexample :
    getNestingType (.typeDecl (.enum "lv_align_t")) =
      .error (.exception "Unknown type in TypeDecl") := rfl

/-- Claim C3, amended.  `__get_nesting_type__` fails with a plain
`Exception` on every enum terminal; the spelling `"enum " ++ tag` is
produced only by the `c_decl_to_c_obj` branch for a declaration whose type
node is directly a `pyc.c_ast.Enum` (no pointer or array wrapping, no
`TypeDecl` in between). -/
theorem enum_handling_amended (tag n : String)
    (quals storage funcspec : List String) :
    getNestingType (.typeDecl (.enum tag)) =
      .error (.exception "Unknown type in TypeDecl")
    ∧ cDeclToCObj (.decl n quals [] storage funcspec (.enumDirect tag)) =
      .ok (.mk n quals [] storage ("enum " ++ tag) 0 0 false [] []) :=
  ⟨rfl, rfl⟩

/-- Claim C4, counterexample.  The claim reconstructs the declaration as
the bare concatenation `render_type() + render_name(true)`, but that
concatenation has no separator between the type and the name: for `int a`
it yields `"inta"`, not the claimed `"int a"`. -/
theorem render_concat_counterexample :
    typeToStr c4Obj true ++ nameToStr c4Obj true ≠ specRender "int" 0 "a" 0 :=
  by decide

/-- Claim C4, amended.  With the single separating space that
`render_declaration` inserts between the two renders,
`render_type() + " " + render_name(true)` reconstructs exactly
`T` + (` ` + `*`×P if P>0) + ` ` + name + (`[]`×A), for every base type,
pointer depth, array depth and name. -/
theorem render_concat_amended (T n : String) (P A : Nat)
    (quals align storage : List String) :
    typeToStr (.mk n quals align storage T A P false [] []) true ++ " " ++
      nameToStr (.mk n quals align storage T A P false [] []) true =
      specRender T P n A := by
  simp only [typeToStr, nameToStr, specRender, CObj.type, CObj.pointerLayers,
    CObj.name, CObj.arrayLayers, if_pos trivial]
  by_cases hP : P = 0
  · subst hP
    simp [String.append_assoc]
  · simp [hP, Nat.pos_of_ne_zero hP, String.append_assoc]

/-- Claim C5.  The call built by `gen_func_call` drops every parameter
whose rendered type is exactly `"void"` and joins the remaining parameter
names with `", "` — stated under the data-model invariant that a parameter
rendering as `"void"` can only be the sole parameter (the K&R
empty-parameter marker, the only shape valid C can produce) — and a
function declared `void f(void)` renders the call `"f();"` with no `void`
among the arguments. -/
theorem render_call_drops_void :
    (∀ f : CObj,
      (∀ p ∈ f.params, typeToStr p true = "void" → f.params = [p]) →
      buildParams f.params =
        joinComma ((f.params.filter
          (fun p => typeToStr p true != "void")).map CObj.name))
    ∧ genFuncCall voidVoidFunc = "lv_task_handler();" := by
  constructor
  · intro f hinv
    rcases hl : f.params with _ | ⟨p, rest⟩
    · rfl
    · rcases hrest : rest with _ | ⟨q, rest2⟩
      · by_cases hv : typeToStr p true = "void"
        · have hb : (typeToStr p true != "void") = false := by simp [hv]
          simp [buildParams, joinComma, hv, hb, List.filter]
        · have hb : (typeToStr p true != "void") = true := bne_iff_ne.mpr hv
          simp [buildParams, joinComma, hv, hb, List.filter]
      · rw [hrest] at hl
        have hnv : ∀ r ∈ p :: q :: rest2, typeToStr r true ≠ "void" := by
          intro r hr hveq
          have h1 := hinv r (hl ▸ hr) hveq
          rw [hl] at h1
          simp at h1
        rw [List.filter_eq_self.mpr
          (by intro r hr; simpa using hnv r hr)]
        exact buildParams_eq_join _ hnv
  · decide

/-- Claim C5, witness: the join property applied to the parameter list of
`int * g(int a, char * b)`. -/
theorem render_call_drops_void_witness :
    buildParams intCharParams =
      joinComma ((intCharParams.filter
        (fun p => typeToStr p true != "void")).map CObj.name) :=
  render_call_drops_void.1 (.mk "g" [] [] [] "int" 0 1 true [] intCharParams)
    (by
      intro p hp hv
      rcases List.mem_cons.mp hp with rfl | hp2
      · exact absurd hv (by decide)
      · rcases List.mem_singleton.mp hp2 with rfl
        exact absurd hv (by decide))

/-- Claim C6.  Collected function names are pairwise distinct; on the
spec's duplicate example — two top-level `lv_foo` declarations, the first
returning `int`, the second `void` — only the first-seen, `int`-returning
one is collected; and a function whose signature fails to normalize (with
the caught `NotImplementedError`) leaves the collected list untouched. -/
theorem collected_names_unique :
    (∀ (patterns : List String) (nodes : List PNode) (res : List CObj),
      runCollector patterns nodes [] = .ok res →
      List.Pairwise (fun a b => a.name ≠ b.name) res)
    ∧ runCollector [] [fooIntNode, fooVoidNode] [] = .ok [fooIntObj]
    ∧ (∀ (patterns : List String) (acc : List CObj) (node : PNode)
       (m : String),
      cDeclToCObj node = .error (.notImplemented m) →
      addLvglFunc patterns acc node = .ok (acc, false)) :=
  ⟨fun _ _ _ h => runCollector_pairwise List.Pairwise.nil h,
   rfl,
   fun _ _ _ _ hc => addLvglFunc_notImpl hc⟩

/-- Claim C6, witness: pairwise distinctness of the concretely collected
list, and the untouched list for a concrete variadic declaration. -/
theorem collected_names_unique_witness :
    List.Pairwise (fun a b => CObj.name a ≠ CObj.name b) [fooIntObj]
    ∧ addLvglFunc [] [] varNode = .ok ([], false) :=
  ⟨collected_names_unique.1 [] [fooIntNode, fooVoidNode] [fooIntObj] rfl,
   collected_names_unique.2.2 [] [] varNode
     "EllipsisParam is not supported temporarily." rfl⟩

/-- Claim C7.  A function is discarded by the blacklist check exactly when
some pattern matches a prefix of its name anchored at the start (the
pattern need not cover the whole name); with an empty pattern list nothing
is excluded; and a blacklisted node makes `__add_lvgl_func__` return with
the list unchanged. -/
theorem blacklist_anchored_match (patterns : List String) (name : String) :
    (blacklisted patterns name = true ↔
      ∃ p ∈ patterns, p.data <+: name.data)
    ∧ blacklisted [] name = false
    ∧ (∀ (acc : List CObj) (node : PNode),
      blacklisted patterns (nodeName node) = true →
      addLvglFunc patterns acc node = .ok (acc, false)) := by
  refine ⟨?_, rfl, ?_⟩
  · simp [blacklisted, List.any_eq_true, List.isPrefixOf_iff_prefix]
  · intro acc node hb
    simp [addLvglFunc, hb]

/-- Claim C7, witness: the default `_lv` pattern excludes `_lv_internal`
(a strict prefix match), the empty list excludes nothing, and the concrete
blacklisted node is skipped with the list unchanged. -/
theorem blacklist_anchored_match_witness :
    ("_lv".data <+: "_lv_internal".data)
    ∧ blacklisted [] "lv_public" = false
    ∧ addLvglFunc ["_lv"] [] blNode = .ok ([], false) := by
  refine ⟨?_, (blacklist_anchored_match [] "lv_public").2.1,
    (blacklist_anchored_match ["_lv"] "_lv_internal").2.2 [] blNode
      (by decide)⟩
  have h := (blacklist_anchored_match ["_lv"] "_lv_internal").1.mp (by decide)
  rcases h with ⟨p, hp, hpre⟩
  rcases List.mem_singleton.mp hp with rfl
  exact hpre

/-- Claim C8.  For a three-line version header in which each of the three
macros appears on exactly one line, the resolved triple is the same for all
six line orders; once a field is nonzero, further matches for it are
ignored; a field never matched stays 0; and the spec's concrete example —
lines defining PATCH 1, MAJOR 9, MINOR 2 in that order — resolves to
`[9, 2, 1]`. -/
theorem version_scan_order_independent (l1 l2 l3 : String) (a b c : Nat)
    (h1a : matchDefine "LVGL_VERSION_MAJOR" l1 = some a)
    (h1b : matchDefine "LVGL_VERSION_MINOR" l1 = none)
    (h1c : matchDefine "LVGL_VERSION_PATCH" l1 = none)
    (h2a : matchDefine "LVGL_VERSION_MAJOR" l2 = none)
    (h2b : matchDefine "LVGL_VERSION_MINOR" l2 = some b)
    (h2c : matchDefine "LVGL_VERSION_PATCH" l2 = none)
    (h3a : matchDefine "LVGL_VERSION_MAJOR" l3 = none)
    (h3b : matchDefine "LVGL_VERSION_MINOR" l3 = none)
    (h3c : matchDefine "LVGL_VERSION_PATCH" l3 = some c) :
    (getLvglVersion [l1, l2, l3] = [a, b, c]
      ∧ getLvglVersion [l1, l3, l2] = [a, b, c]
      ∧ getLvglVersion [l2, l1, l3] = [a, b, c]
      ∧ getLvglVersion [l2, l3, l1] = [a, b, c]
      ∧ getLvglVersion [l3, l1, l2] = [a, b, c]
      ∧ getLvglVersion [l3, l2, l1] = [a, b, c])
    ∧ (∀ (st : Nat × Nat × Nat) (l : String),
      (st.1 ≠ 0 → (versionStep st l).1 = st.1)
      ∧ (st.2.1 ≠ 0 → (versionStep st l).2.1 = st.2.1)
      ∧ (st.2.2 ≠ 0 → (versionStep st l).2.2 = st.2.2))
    ∧ (∀ lines : List String,
      (∀ l ∈ lines, matchDefine "LVGL_VERSION_MAJOR" l = none) →
      (getLvglVersion lines).head? = some 0)
    ∧ getLvglVersion [pLineEx, mLineEx, nLineEx] = [9, 2, 1] := by
  refine ⟨⟨?_, ?_, ?_, ?_, ?_, ?_⟩, ?_, ?_, by decide⟩
  · simp only [getLvglVersion, List.foldl,
      versionStep_setMajor 0 0 h1a h1b h1c,
      versionStep_setMinor a 0 h2a h2b h2c,
      versionStep_setPatch a b h3a h3b h3c]
  · simp only [getLvglVersion, List.foldl,
      versionStep_setMajor 0 0 h1a h1b h1c,
      versionStep_setPatch a 0 h3a h3b h3c,
      versionStep_setMinor a c h2a h2b h2c]
  · simp only [getLvglVersion, List.foldl,
      versionStep_setMinor 0 0 h2a h2b h2c,
      versionStep_setMajor b 0 h1a h1b h1c,
      versionStep_setPatch a b h3a h3b h3c]
  · simp only [getLvglVersion, List.foldl,
      versionStep_setMinor 0 0 h2a h2b h2c,
      versionStep_setPatch 0 b h3a h3b h3c,
      versionStep_setMajor b c h1a h1b h1c]
  · simp only [getLvglVersion, List.foldl,
      versionStep_setPatch 0 0 h3a h3b h3c,
      versionStep_setMajor 0 c h1a h1b h1c,
      versionStep_setMinor a c h2a h2b h2c]
  · simp only [getLvglVersion, List.foldl,
      versionStep_setPatch 0 0 h3a h3b h3c,
      versionStep_setMinor 0 c h2a h2b h2c,
      versionStep_setMajor b c h1a h1b h1c]
  · intro st l
    refine ⟨fun h => ?_, fun h => ?_, fun h => ?_⟩ <;>
      simp [versionStep, h]
  · intro lines hnone
    simp only [getLvglVersion, List.head?]
    rw [foldl_major_none lines (0, 0, 0) hnone]

/-- Claim C8, witness: the order-independence conclusion applied to the
three concrete header lines (MAJOR, MINOR, PATCH order). -/
theorem version_scan_order_independent_witness :
    getLvglVersion [mLineEx, nLineEx, pLineEx] = [9, 2, 1] :=
  (version_scan_order_independent mLineEx nLineEx pLineEx 9 2 1
    (by decide) (by decide) (by decide) (by decide) (by decide) (by decide)
    (by decide) (by decide) (by decide)).1.1

/-- Claim C9.  Emitting a wrapper's definition or declaration derives the
renamed declaration from an independent clone (`copy.deepcopy` followed by
assigning the prefixed name): the clone's name is `prefix + original name`,
every other field of the clone equals the original's, and the original
`FunctionDecl` — its name included — is unchanged after either
operation. -/
theorem wrapper_clone_frame (tmpl pre : String) (f : CObj) :
    (genFuncDef tmpl pre f).2 = f
    ∧ (genFuncDecl tmpl pre f).2 = f
    ∧ (safeClone pre f).name = pre ++ f.name
    ∧ (safeClone pre f).quals = f.quals
    ∧ (safeClone pre f).align = f.align
    ∧ (safeClone pre f).storage = f.storage
    ∧ (safeClone pre f).type = f.type
    ∧ (safeClone pre f).arrayLayers = f.arrayLayers
    ∧ (safeClone pre f).pointerLayers = f.pointerLayers
    ∧ (safeClone pre f).isFunc = f.isFunc
    ∧ (safeClone pre f).funcspec = f.funcspec
    ∧ (safeClone pre f).params = f.params := by
  obtain ⟨n, q, al, s, t, ar, pl, b, fs, ps⟩ := f
  exact ⟨rfl, rfl, rfl, rfl, rfl, rfl, rfl, rfl, rfl, rfl, rfl, rfl⟩

/-- Claim C10.  `to_str` renders an object whose base type is `"void"`
with zero pointer layers as the bare rendered type — no name, no array
brackets — even when the declaration carries a non-empty name; and
whenever the rendered type differs from `"void"`, the name (with its
array suffix) is appended. -/
theorem void_object_decl_no_name (d : CObj) (s w : Bool) :
    (d.type = "void" ∧ d.pointerLayers = 0 →
      toStr d s w = declPre d ++ "void" ++ (if s then ";" else ""))
    ∧ (typeToStr d true ≠ "void" →
      toStr d s w =
        declPre d ++ typeToStr d true ++ " " ++ nameToStr d w ++
          (if s then ";" else "")) := by
  constructor
  · rintro ⟨h1, h2⟩
    have hv : typeToStr d true = "void" := by simp [typeToStr, h1, h2]
    simp [toStr, hv, String.append_assoc]
  · intro hv
    simp [toStr, hv, String.append_assoc]

/-- Claim C10, witness: a `void`-typed declaration with the non-empty name
`x` and two array layers still renders as exactly `"void"`. -/
theorem void_object_decl_no_name_witness :
    toStr c10Obj false true = "void" := by
  have h := (void_object_decl_no_name c10Obj false true).1 ⟨rfl, rfl⟩
  exact h.trans (by decide)

end SafeLvgl
